import Mathlib

/-!
Verification of the domain-object layer of the sc2reader replay library
(`sc2reader/objects.py`): `DepotFile`, `Team`, `Attribute`, the
`Person`/`Observer`/`Player` hierarchy and `Graph`.

The Python source is embedded shallowly:

* Python 2 byte strings (`str`) are `List Nat` (each entry a byte, `< 256`);
  decoded unicode text is Lean `String`.
* `hashlib.sha256(...).hexdigest()` is modelled by a full executable SHA-256
  implementation (`sha256hex`), so digests are computed, not stubbed.
* `str.decode('utf-8')` is modelled by an executable UTF-8 decoder returning
  `Option` (it raises `UnicodeDecodeError` on invalid input in Python).
* Attribute access on a field no constructor ever sets (`Player.gateway`) is
  modelled by an `Option` field initialised to `none`; reading it through
  `Player.url` yields `none`, the image of Python's `AttributeError`.
* A constructor that can `raise` is a function into `Except`/`Option`.
-/

namespace SC2Reader

/-! ### Hexadecimal rendering

Python 2's `str.encode('hex')` and `hashlib`'s `hexdigest` both render
bytes as lowercase hexadecimal, two digits per byte. -/

/-- Lowercase hex digit for a nibble `n < 16` (`0`–`9`, `a`–`f`). -/
def hexChar (n : Nat) : Char :=
  if n < 10 then Char.ofNat (48 + n) else Char.ofNat (87 + n)

/-- Lowercase hexadecimal rendering of a byte list, as in Python 2's
`s.encode('hex')`. -/
def hexOfBytes (bs : List Nat) : String :=
  String.mk (bs.foldr (fun b acc => hexChar (b / 16) :: hexChar (b % 16) :: acc) [])

/-! ### SHA-256 (`hashlib.sha256(...).hexdigest()`)

Executable model of FIPS 180-4 SHA-256 over a list of bytes, used by
`Team.hash`.  All word arithmetic is on `Nat` reduced modulo `2 ^ 32`. -/

/-- SHA-256 round constants (fractional parts of the cube roots of the first
64 primes), written in decimal. -/
def shaK : List Nat :=
  [1116352408, 1899447441, 3049323471, 3921009573, 961987163, 1508970993,
   2453635748, 2870763221, 3624381080, 310598401, 607225278, 1426881987,
   1925078388, 2162078206, 2614888103, 3248222580, 3835390401, 4022224774,
   264347078, 604807628, 770255983, 1249150122, 1555081692, 1996064986,
   2554220882, 2821834349, 2952996808, 3210313671, 3336571891, 3584528711,
   113926993, 338241895, 666307205, 773529912, 1294757372, 1396182291,
   1695183700, 1986661051, 2177026350, 2456956037, 2730485921, 2820302411,
   3259730800, 3345764771, 3516065817, 3600352804, 4094571909, 275423344,
   430227734, 506948616, 659060556, 883997877, 958139571, 1322822218,
   1537002063, 1747873779, 1955562222, 2024104815, 2227730452, 2361852424,
   2428436474, 2756734187, 3204031479, 3329325298]

/-- SHA-256 initial hash state, written in decimal. -/
def shaH0 : List Nat :=
  [1779033703, 3144134277, 1013904242, 2773480762, 1359893119, 2600822924,
   528734635, 1541459225]

/-- Right rotation of a 32-bit word. -/
def rotr32 (n x : Nat) : Nat :=
  ((x >>> n) ||| ((x % (2 ^ n)) <<< (32 - n))) % (2 ^ 32)

/-- Bitwise complement of a 32-bit word. -/
def not32 (x : Nat) : Nat := x ^^^ 0xffffffff

/-- Group a byte list into big-endian 32-bit words (four bytes per word). -/
def beWords : List Nat → List Nat
  | a :: b :: c :: d :: rest => (((a * 256 + b) * 256 + c) * 256 + d) :: beWords rest
  | _ => []

/-- One step of the SHA-256 message-schedule extension: append
`σ1(w[t-2]) + w[t-7] + σ0(w[t-15]) + w[t-16]` to the schedule. -/
def extendStep (w : List Nat) : List Nat :=
  let n := w.length
  let wAt := fun (k : Nat) => w.getD (n - k) 0
  let s0 := (rotr32 7 (wAt 15)) ^^^ (rotr32 18 (wAt 15)) ^^^ ((wAt 15) >>> 3)
  let s1 := (rotr32 17 (wAt 2)) ^^^ (rotr32 19 (wAt 2)) ^^^ ((wAt 2) >>> 10)
  w ++ [(s1 + wAt 7 + s0 + wAt 16) % (2 ^ 32)]

/-- Extend the 16-word schedule by `n` further words. -/
def extendLoop : Nat → List Nat → List Nat
  | 0, w => w
  | n + 1, w => extendLoop n (extendStep w)

/-- Working state of the SHA-256 compression loop: the eight registers
`a`–`h`. -/
structure ShaState where
  a : Nat
  b : Nat
  c : Nat
  d : Nat
  e : Nat
  f : Nat
  g : Nat
  h : Nat
deriving Repr, DecidableEq

/-- One round of the SHA-256 compression function, consuming one
`(constant, schedule-word)` pair. -/
def shaRound (st : ShaState) (kw : Nat × Nat) : ShaState :=
  let S1 := (rotr32 6 st.e) ^^^ (rotr32 11 st.e) ^^^ (rotr32 25 st.e)
  let ch := (st.e &&& st.f) ^^^ ((not32 st.e) &&& st.g)
  let t1 := (st.h + S1 + ch + kw.1 + kw.2) % (2 ^ 32)
  let S0 := (rotr32 2 st.a) ^^^ (rotr32 13 st.a) ^^^ (rotr32 22 st.a)
  let mj := (st.a &&& st.b) ^^^ (st.a &&& st.c) ^^^ (st.b &&& st.c)
  let t2 := (S0 + mj) % (2 ^ 32)
  ⟨(t1 + t2) % (2 ^ 32), st.a, st.b, st.c, (st.d + t1) % (2 ^ 32), st.e, st.f, st.g⟩

/-- Compress one 64-byte block into the running eight-word hash value. -/
def processBlock (h : List Nat) (block : List Nat) : List Nat :=
  let w := extendLoop 48 (beWords block)
  let init : ShaState :=
    ⟨h.getD 0 0, h.getD 1 0, h.getD 2 0, h.getD 3 0, h.getD 4 0, h.getD 5 0, h.getD 6 0, h.getD 7 0⟩
  let st := (shaK.zip w).foldl shaRound init
  [(h.getD 0 0 + st.a) % (2 ^ 32), (h.getD 1 0 + st.b) % (2 ^ 32),
   (h.getD 2 0 + st.c) % (2 ^ 32), (h.getD 3 0 + st.d) % (2 ^ 32),
   (h.getD 4 0 + st.e) % (2 ^ 32), (h.getD 5 0 + st.f) % (2 ^ 32),
   (h.getD 6 0 + st.g) % (2 ^ 32), (h.getD 7 0 + st.h) % (2 ^ 32)]

/-- Split a byte list into 64-byte blocks (structural recursion on a fuel
bound, so that digests reduce inside the kernel). -/
def chunksGo : Nat → List Nat → List (List Nat)
  | 0, _ => []
  | _, [] => []
  | fuel + 1, b :: rest => (b :: rest).take 64 :: chunksGo fuel ((b :: rest).drop 64)

/-- Split a byte list into 64-byte blocks. -/
def chunks64 (l : List Nat) : List (List Nat) := chunksGo l.length l

/-- SHA-256 padding: append `0x80`, zero bytes up to 56 mod 64, then the
bit length as an 8-byte big-endian integer. -/
def shaPad (msg : List Nat) : List Nat :=
  let len := msg.length
  let zeros := (119 - len % 64) % 64
  let bitlen := len * 8
  msg ++ 0x80 :: List.replicate zeros 0 ++
    ((List.range 8).map fun i => (bitlen >>> (8 * (7 - i))) % 256)

/-- The eight 32-bit words of the SHA-256 digest of a byte list. -/
def sha256Words (msg : List Nat) : List Nat :=
  (chunks64 (shaPad msg)).foldl processBlock shaH0

/-- `hashlib.sha256(msg).hexdigest()`: lowercase-hex SHA-256 digest of a
byte list. -/
def sha256hex (msg : List Nat) : String :=
  hexOfBytes ((sha256Words msg).foldr
    (fun w acc => (w >>> 24) % 256 :: (w >>> 16) % 256 :: (w >>> 8) % 256 :: w % 256 :: acc) [])

/-! ### UTF-8

`str.decode('utf-8')` and the byte content of a text string.  The decoder
is strict, like Python's: invalid start bytes, truncated or ill-formed
continuations, overlong forms, surrogates and values above `U+10FFFF` all
fail (Python raises `UnicodeDecodeError`; here the result is `none`). -/

/-- Whether a byte is a UTF-8 continuation byte (`0x80`–`0xBF`). -/
def isCont (b : Nat) : Bool := 128 ≤ b && b < 192

/-- Worker for `utf8Decode`: structural recursion on a fuel bound (always
called with fuel at least the list length, so the `0` arm is
unreachable). -/
def utf8DecodeGo : Nat → List Nat → Option (List Char)
  | _, [] => some []
  | 0, _ :: _ => none
  | fuel + 1, b :: rest =>
    if b < 128 then
      (utf8DecodeGo fuel rest).map fun cs => Char.ofNat b :: cs
    else if b < 194 then none
    else if b < 224 then
      match rest with
      | c1 :: rest1 =>
        if isCont c1 then
          (utf8DecodeGo fuel rest1).map fun cs => Char.ofNat ((b - 192) * 64 + (c1 - 128)) :: cs
        else none
      | _ => none
    else if b < 240 then
      match rest with
      | c1 :: c2 :: rest2 =>
        if isCont c1 && isCont c2 then
          let v := ((b - 224) * 64 + (c1 - 128)) * 64 + (c2 - 128)
          if 2048 ≤ v && (v < 0xd800 || 0xdfff < v) then
            (utf8DecodeGo fuel rest2).map fun cs => Char.ofNat v :: cs
          else none
        else none
      | _ => none
    else if b < 245 then
      match rest with
      | c1 :: c2 :: c3 :: rest3 =>
        if isCont c1 && isCont c2 && isCont c3 then
          let v := (((b - 240) * 64 + (c1 - 128)) * 64 + (c2 - 128)) * 64 + (c3 - 128)
          if 0x10000 ≤ v && v ≤ 0x10ffff then
            (utf8DecodeGo fuel rest3).map fun cs => Char.ofNat v :: cs
          else none
        else none
      | _ => none
    else none

/-- Strict UTF-8 decoding of a byte list to unicode scalar values
(Python: `bytes.decode('utf-8')`, `none` = `UnicodeDecodeError`). -/
def utf8Decode (l : List Nat) : Option (List Char) := utf8DecodeGo l.length l

/-- UTF-8 encoding of one unicode scalar value. -/
def utf8EncodeChar (c : Char) : List Nat :=
  let v := c.toNat
  if v < 128 then [v]
  else if v < 2048 then [192 + v / 64, 128 + v % 64]
  else if v < 65536 then [224 + v / 4096, 128 + (v / 64) % 64, 128 + v % 64]
  else [240 + v / 262144, 128 + (v / 4096) % 64, 128 + (v / 64) % 64, 128 + v % 64]

/-- The UTF-8 bytes of a string (the byte content of a Python 2 `str`
holding this text). -/
def utf8Encode (s : String) : List Nat :=
  s.toList.foldr (fun c acc => utf8EncodeChar c ++ acc) []

/-! ### Python `strip`

Python's `str.strip(chars)` removes characters of `chars` from **both** ends
of the string.  `objects.py` uses `.strip('\x00 ')` on the depot server field
(text) and on raw attribute values (bytes). -/

/-- Whether a byte is a padding byte: null (`0x00`) or space (`0x20`). -/
def isPadByte (b : Nat) : Bool := b == 0 || b == 32

/-- Whether a character is a padding character: null or space. -/
def isPadChar (c : Char) : Bool := c == Char.ofNat 0 || c == ' '

/-- Python `value.strip("\x00 ")` on a byte string: remove leading and
trailing null and space bytes. -/
def pyStripBytes (s : List Nat) : List Nat :=
  ((s.dropWhile isPadByte).reverse.dropWhile isPadByte).reverse

/-- Python `text.strip('\x00 ')` on decoded text: remove leading and
trailing null and space characters. -/
def pyStripChars (s : List Char) : List Char :=
  ((s.dropWhile isPadChar).reverse.dropWhile isPadChar).reverse

/-! ### DepotFile

```python
class DepotFile(object):
    url_template = 'http://{0}.depot.battle.net:1119/{1}.{2}'

    def __init__(self, bytes):
        self.server = bytes[4:8].decode('utf-8').strip('\x00 ')
        self.hash = bytes[8:].encode('hex')
        self.type = bytes[0:4]

    @property
    def url(self):
        return self.url_template.format(self.server, self.hash, self.type)

    def __hash__(self):
        return hash(self.url)
```

`__init__` can raise: `.decode('utf-8')` fails on a server field that is not
valid UTF-8, so construction is `Option`.  The `url` property interpolates
the raw byte string `self.type` into a unicode result (`self.server` is
unicode), which in Python 2 implicitly ASCII-decodes it, so `url` is also
`Option`, failing when the type field holds a non-ASCII byte. -/

/-- A constructed `DepotFile`: decoded server text, lowercase-hex content
hash, and the raw 4-byte type code. -/
structure DepotFile where
  server : String
  hash : String
  type : List Nat
deriving Repr, DecidableEq

/-- `DepotFile.__init__` over the raw descriptor bytes.  `none` models the
`UnicodeDecodeError` raised when `bytes[4:8]` is not valid UTF-8. -/
def mkDepotFile (bytes : List Nat) : Option DepotFile :=
  (utf8Decode ((bytes.drop 4).take 4)).map fun serverChars =>
    { server := String.mk (pyStripChars serverChars)
      hash := hexOfBytes (bytes.drop 8)
      type := bytes.take 4 }

/-- The `url` property: `url_template.format(server, hash, type)`.  The
format result is unicode, so the byte-string `type` field is implicitly
ASCII-decoded; a non-ASCII type byte raises (`none`). -/
def DepotFile.url (d : DepotFile) : Option String :=
  if d.type.all (fun b => b < 128) then
    some ("http://" ++ d.server ++ ".depot.battle.net:1119/" ++ d.hash ++ "." ++
      String.mk (d.type.map Char.ofNat))
  else none

/-- A `DepotFile` instance as a Python runtime object: the decoded value
together with an object identity (`addr`, the `id()` of the instance). -/
structure PyDepotFile where
  addr : Nat
  file : DepotFile
deriving Repr, DecidableEq

/-- Python `==` on two `DepotFile` instances.  The class defines no
`__eq__`, so comparison falls back to the default object identity. -/
def pyDepotEqBool (a b : PyDepotFile) : Bool := a.addr == b.addr

/-- `DepotFile.__hash__`: `hash(self.url)` for the builtin string hash
`pyhash` of the running interpreter (`none` when the `url` property
raises). -/
def pyDepotHash (pyhash : String → Int) (o : PyDepotFile) : Option Int :=
  o.file.url.map pyhash

/-! ### Attribute

```python
class Attribute(object):
    def __init__(self, header, attr_id, player, value):
        self.header = header
        self.id = attr_id
        self.player = player

        if self.id not in LOBBY_PROPERTIES:
            raise ValueError("Unknown attribute id: "+self.id)
        else:
            self.name, lookup = LOBBY_PROPERTIES[self.id]
            self.value = lookup[value.strip("\x00 ")[::-1]]
```

`LOBBY_PROPERTIES` lives in `sc2reader.constants` (outside this layer); the
spec treats it as process-wide static configuration, so the embedding takes
the registry as an explicit parameter: an association list
`id → (display name, byte-key → value table)`.  The two failure modes are
distinguished exactly as in the source: a `ValueError` for an unknown id and
a `KeyError` for a value key missing from the per-id table. -/

/-- A per-id value table: decoded value for each raw byte key. -/
abbrev AttrTable := List (List Nat × String)

/-- The static lobby-property registry: `id → (name, value table)`. -/
abbrev Registry := List (Nat × String × AttrTable)

/-- Dictionary lookup in the registry (`LOBBY_PROPERTIES[id]`,
`id in LOBBY_PROPERTIES`). -/
def regLookup (props : Registry) (id : Nat) : Option (String × AttrTable) :=
  (props.find? (fun e => e.1 == id)).map (·.2)

/-- Dictionary lookup in a per-id value table (`lookup[key]`). -/
def tblLookup (tbl : AttrTable) (key : List Nat) : Option String :=
  (tbl.find? (fun e => e.1 == key)).map (·.2)

/-- The two decoding failures: unknown attribute id (`ValueError`) and
value key absent from the per-id table (`KeyError`). -/
inductive AttrError where
  | unknownAttributeId (id : Nat)
  | unknownAttributeValue (key : List Nat)
deriving Repr, DecidableEq

/-- A fully decoded `Attribute`. -/
structure Attribute where
  header : Nat
  id : Nat
  player : Nat
  name : String
  value : String
deriving Repr, DecidableEq

/-- `Attribute.__init__`: registry check, then value decoding via
`lookup[value.strip("\x00 ")[::-1]]`.  An exception during `__init__` means
the construction expression yields no object, hence `Except`. -/
def mkAttribute (props : Registry) (header : Nat) (attr_id : Nat) (player : Nat)
    (value : List Nat) : Except AttrError Attribute :=
  match regLookup props attr_id with
  | none => .error (.unknownAttributeId attr_id)
  | some (name, lookup) =>
    let key := (pyStripBytes value).reverse
    match tblLookup lookup key with
    | some v => .ok ⟨header, attr_id, player, name, v⟩
    | none => .error (.unknownAttributeValue key)

/-- Modelled from the spec (section 4.2, step 2 as literally written): strip
only **trailing** null bytes and spaces from the raw value.  Compare
`pyStripBytes`, the source behaviour, which also strips leading padding. -/
def specStripTrailing (s : List Nat) : List Nat :=
  (s.reverse.dropWhile isPadByte).reverse

/-- Modelled from the spec (section 4.2 as literally written): decode an
attribute by (1) registry lookup, (2) stripping trailing padding and
reversing the remaining bytes, (3) per-id table lookup. -/
def specAttrDecode (props : Registry) (header : Nat) (attr_id : Nat) (player : Nat)
    (value : List Nat) : Except AttrError Attribute :=
  match regLookup props attr_id with
  | none => .error (.unknownAttributeId attr_id)
  | some (name, lookup) =>
    let key := (specStripTrailing value).reverse
    match tblLookup lookup key with
    | some v => .ok ⟨header, attr_id, player, name, v⟩
    | none => .error (.unknownAttributeValue key)

/-! ### Person / Observer / Player and Team

`Person.__init__` sets `pid`, `name`, `is_observer`, `messages`, `events`,
`camera_events`, `ability_events`, `selection_events`, `is_human`, `region`
and `recorder`; `Player.__init__` calls it and sets `is_observer = False`.
The remaining attributes read through class-level defaults (`team = None`,
`subregion = int()`, `uid = int()`, race/difficulty strings, `handicap`)
until an external decoder assigns them.  **No** class or constructor ever
assigns `gateway`, so a fresh `Player` has no such attribute and reading it
(as `Player.url` does) raises `AttributeError`; the field is therefore an
`Option String` that construction sets to `none`.

`Player.team` holds a reference to the owning `Team`, and `Team.players`
holds the member `Player`s, so the two types are declared together
(`Team` nests `PlayerRec Team`).  Event and message list elements belong to
classes outside this module and never influence these computations, so they
are modelled as `Unit`. -/

/-- A `Player` object's attribute state, parametrised by the type of the
`team` back-reference. -/
structure PlayerRec (T : Type) where
  pid : Int
  name : String
  is_observer : Bool
  messages : List Unit
  events : List Unit
  camera_events : List Unit
  ability_events : List Unit
  selection_events : List Unit
  is_human : Bool
  region : String
  recorder : Bool
  team : Option T
  color : Option Unit
  pick_race : String
  play_race : String
  difficulty : String
  handicap : Int
  subregion : Int
  uid : Int
  gateway : Option String

/-- A `Team` object's attribute state (`number`, `players`, `result`,
`lineup`); `hash` is a recomputed property, not a stored field. -/
inductive Team where
  | mk (number : Int) (players : List (PlayerRec Team)) (result : String) (lineup : String)

/-- A `Player` object: a `PlayerRec` whose `team` field references a
`Team`. -/
abbrev Player := PlayerRec Team

/-- The `number` field of a team. -/
def Team.number : Team → Int
  | .mk n _ _ _ => n

/-- The `players` list of a team. -/
def Team.players : Team → List Player
  | .mk _ ps _ _ => ps

/-- The `result` field of a team (`"Win"`, `"Loss"` or `"Unknown"`). -/
def Team.result : Team → String
  | .mk _ _ r _ => r

/-- The `lineup` field of a team. -/
def Team.lineup : Team → String
  | .mk _ _ _ l => l

/-- `Team.__init__`: empty player list, result `"Unknown"`, empty
lineup. -/
def mkTeam (number : Int) : Team := .mk number [] "Unknown" ""

/-- `Player.__init__` (which runs `Person.__init__` and then sets
`is_observer = False`), together with the class-level defaults through
which unassigned attributes read.  `gateway := none` records that no
constructor or class default defines that attribute. -/
def mkPlayer (pid : Int) (name : String) : Player :=
  { pid := pid
    name := name
    is_observer := false
    messages := []
    events := []
    camera_events := []
    ability_events := []
    selection_events := []
    is_human := false
    region := ""
    recorder := false
    team := none
    color := none
    pick_race := ""
    play_race := ""
    difficulty := ""
    handicap := 0
    subregion := 0
    uid := 0
    gateway := none }

/-- The `Player.url` property:
`"http://%s.battle.net/sc2/en/profile/%s/%s/%s/" % (gateway, uid, subregion, name)`.
Reading `self.gateway` on an object where it was never assigned raises
`AttributeError`, modelled by `none`. -/
def Player.url (p : Player) : Option String :=
  p.gateway.map fun g =>
    "http://" ++ g ++ ".battle.net/sc2/en/profile/" ++ toString p.uid ++ "/" ++
      toString p.subregion ++ "/" ++ p.name ++ "/"

/-- The `Player.result` property:
`self.team.result if self.team else "Unknown"`.  A `Team` object defines
neither `__nonzero__` nor `__len__`, so every team reference is truthy and
only `None` selects the `"Unknown"` branch. -/
def Player.result (p : Player) : String :=
  match p.team with
  | some t => t.result
  | none => "Unknown"

/-- Evaluate a generator/list of optional values left to right, failing as
soon as one element raises — `sorted(p.url for p in self.players)` consumes
its generator this way. -/
def optList {α : Type} : List (Option α) → Option (List α)
  | [] => some []
  | none :: _ => none
  | some a :: rest => (optList rest).map fun l => a :: l

/-- Lexicographic comparison of character lists by code point, the order
Python's `sorted` uses on the byte strings at hand. -/
def lexLeChars : List Char → List Char → Bool
  | [], _ => true
  | _ :: _, [] => false
  | a :: as, b :: bs =>
    if a.toNat < b.toNat then true
    else if b.toNat < a.toNat then false
    else lexLeChars as bs

/-- Lexicographic string comparison by code point. -/
def strLe (a b : String) : Bool := lexLeChars a.data b.data

/-- Python `sorted` on strings: the lexicographically sorted permutation. -/
def pySorted (l : List String) : List String :=
  List.insertionSort (fun a b => strLe a b = true) l

/-- The `Team.hash` property:
`hashlib.sha256(','.join(sorted(p.url for p in self.players))).hexdigest()`.
Recomputed from the current membership on every read; raises (`none`) when
some member's `url` raises. -/
def Team.hash (t : Team) : Option String :=
  (optList (t.players.map Player.url)).map fun urls =>
    sha256hex (utf8Encode (String.intercalate "," (pySorted urls)))

/-! ### Graph

```python
def __init__(self, x, y, xy_list=None):
    self.times = list()
    self.values = list()

    if xy_list:
        for x, y in xy_list:
            self.times.append(x)
            self.values.append(y)
    else:
        self.times = x
        self.values = y
```

`if xy_list:` is Python truthiness: the pair-list branch runs only when
`xy_list` is neither `None` nor empty.  No length check relates `x` and
`y`. -/

/-- A score-screen graph: x-axis times and y-axis values. -/
structure Graph (α β : Type) where
  times : List α
  values : List β
deriving Repr, DecidableEq

/-- `Graph.__init__`: build from the pair list when it is given and
non-empty, otherwise store the two parallel sequences unchecked. -/
def mkGraph {α β : Type} (x : List α) (y : List β) (xy_list : Option (List (α × β))) :
    Graph α β :=
  match xy_list with
  | some (p :: ps) => { times := (p :: ps).map Prod.fst, values := (p :: ps).map Prod.snd }
  | _ => { times := x, values := y }

/-! ### Order properties of the sort relation and permutation lemmas -/

theorem lexLeChars_total (a : List Char) : ∀ b, lexLeChars a b = true ∨ lexLeChars b a = true := by
  induction a with
  | nil => intro b; left; rfl
  | cons x xs ih =>
    intro b
    cases b with
    | nil => right; rfl
    | cons y ys =>
      rcases Nat.lt_trichotomy x.toNat y.toNat with h | h | h
      · left; simp [lexLeChars, h]
      · rcases ih ys with h2 | h2
        · left; simp [lexLeChars, h, h2]
        · right; simp [lexLeChars, h, h2]
      · right; simp [lexLeChars, h]

theorem lexLeChars_trans (a : List Char) :
    ∀ b c, lexLeChars a b = true → lexLeChars b c = true → lexLeChars a c = true := by
  induction a with
  | nil => intro b c _ _; rfl
  | cons x xs ih =>
    intro b c h1 h2
    cases b with
    | nil => simp [lexLeChars] at h1
    | cons y ys =>
      cases c with
      | nil => simp [lexLeChars] at h2
      | cons z zs =>
        simp only [lexLeChars] at h1 h2 ⊢
        rcases Nat.lt_trichotomy x.toNat y.toNat with hxy | hxy | hxy
        · rcases Nat.lt_trichotomy y.toNat z.toNat with hyz | hyz | hyz
          · simp [show x.toNat < z.toNat by omega]
          · simp [show x.toNat < z.toNat by omega]
          · simp [Nat.lt_asymm hyz, hyz] at h2
        · rcases Nat.lt_trichotomy y.toNat z.toNat with hyz | hyz | hyz
          · simp [show x.toNat < z.toNat by omega]
          · have h1' : lexLeChars xs ys = true := by
              simpa [show ¬ x.toNat < y.toNat by omega,
                show ¬ y.toNat < x.toNat by omega] using h1
            have h2' : lexLeChars ys zs = true := by
              simpa [show ¬ y.toNat < z.toNat by omega,
                show ¬ z.toNat < y.toNat by omega] using h2
            simpa [show ¬ x.toNat < z.toNat by omega,
              show ¬ z.toNat < x.toNat by omega] using ih ys zs h1' h2'
          · simp [Nat.lt_asymm hyz, hyz] at h2
        · simp [Nat.lt_asymm hxy, hxy] at h1

theorem lexLeChars_antisymm (a : List Char) :
    ∀ b, lexLeChars a b = true → lexLeChars b a = true → a = b := by
  induction a with
  | nil =>
    intro b _ h2
    cases b with
    | nil => rfl
    | cons y ys => simp [lexLeChars] at h2
  | cons x xs ih =>
    intro b h1 h2
    cases b with
    | nil => simp [lexLeChars] at h1
    | cons y ys =>
      simp only [lexLeChars] at h1 h2
      rcases Nat.lt_trichotomy x.toNat y.toNat with h | h | h
      · simp [h, Nat.lt_asymm h] at h2
      · have hxy : x = y := Char.ext (UInt32.toNat.inj h)
        subst hxy
        simp [Nat.lt_irrefl] at h1 h2
        rw [ih ys h1 h2]
      · simp [h, Nat.lt_asymm h] at h1

instance : IsTotal String (fun a b => strLe a b = true) :=
  ⟨fun a b => lexLeChars_total a.data b.data⟩

instance : IsTrans String (fun a b => strLe a b = true) :=
  ⟨fun a b c => lexLeChars_trans a.data b.data c.data⟩

instance : IsAntisymm String (fun a b => strLe a b = true) :=
  ⟨fun a b h1 h2 => by
    cases a with
    | mk la =>
      cases b with
      | mk lb => exact congrArg String.mk (lexLeChars_antisymm la lb h1 h2)⟩

/-- Sorting lexicographically is invariant under permutation of the
input. -/
theorem pySorted_eq_of_perm {a b : List String} (h : a.Perm b) : pySorted a = pySorted b :=
  List.eq_of_perm_of_sorted
    ((List.perm_insertionSort _ a).trans (h.trans (List.perm_insertionSort _ b).symm))
    (List.sorted_insertionSort _ a) (List.sorted_insertionSort _ b)

/-- Evaluating a permuted list of optional values: either both evaluations
raise, or both succeed with permuted results. -/
theorem optList_perm {α : Type} {l1 l2 : List (Option α)} (h : l1.Perm l2) :
    (optList l1 = none ∧ optList l2 = none) ∨
      ∃ a b, optList l1 = some a ∧ optList l2 = some b ∧ a.Perm b := by
  induction h with
  | nil => exact .inr ⟨[], [], rfl, rfl, .nil⟩
  | cons x _ ih =>
    cases x with
    | none => exact .inl ⟨rfl, rfl⟩
    | some v =>
      rcases ih with ⟨h1, h2⟩ | ⟨a, b, h1, h2, hp⟩
      · exact .inl ⟨by simp [optList, h1], by simp [optList, h2]⟩
      · exact .inr ⟨v :: a, v :: b, by simp [optList, h1], by simp [optList, h2], .cons v hp⟩
  | swap x y l =>
    cases x with
    | none =>
      cases y with
      | none => exact .inl ⟨rfl, rfl⟩
      | some v => exact .inl ⟨by simp [optList], rfl⟩
    | some u =>
      cases y with
      | none => exact .inl ⟨rfl, by simp [optList]⟩
      | some v =>
        cases hl : optList l with
        | none => exact .inl ⟨by simp [optList, hl], by simp [optList, hl]⟩
        | some a =>
          exact .inr ⟨v :: u :: a, u :: v :: a, by simp [optList, hl],
            by simp [optList, hl], List.Perm.swap u v a⟩
  | trans _ _ ih1 ih2 =>
    rcases ih1 with ⟨h1, h2⟩ | ⟨a, b, h1, h2, hp⟩
    · rcases ih2 with ⟨h3, h4⟩ | ⟨c, d, h3, h4, _⟩
      · exact .inl ⟨h1, h4⟩
      · rw [h2] at h3; cases h3
    · rcases ih2 with ⟨h3, h4⟩ | ⟨c, d, h3, h4, hq⟩
      · rw [h2] at h3; cases h3
      · rw [h2] at h3
        cases h3
        exact .inr ⟨a, d, h1, h4, hp.trans hq⟩

/-- `Team.hash` depends only on the multiset of member `url` outcomes: a
permutation of the (possibly failing) member URLs leaves the digest
unchanged. -/
theorem Team.hash_eq_of_url_perm {t1 t2 : Team}
    (h : (t1.players.map Player.url).Perm (t2.players.map Player.url)) :
    t1.hash = t2.hash := by
  rcases optList_perm h with ⟨h1, h2⟩ | ⟨a, b, h1, h2, hp⟩
  · simp [Team.hash, h1, h2]
  · simp [Team.hash, h1, h2, pySorted_eq_of_perm hp]

/-! ### Sample players for concrete checks -/

/-- A sample player with an externally assigned gateway. -/
def pAlice : Player := { mkPlayer 1 "Alice" with gateway := some "us" }

/-- A second sample player with an externally assigned gateway. -/
def pBob : Player := { mkPlayer 2 "Bob" with gateway := some "eu" }

/-- A sample player whose profile URL fields are all at their defaults. -/
def pBlank : Player := { mkPlayer 1 "" with gateway := some "" }

/-! ### Claims -/

set_option maxRecDepth 40000

/-- C1 counterexample: the claim says the decoder strips only **trailing**
null bytes and spaces before reversing; the source (`value.strip("\x00 ")`)
also strips leading padding.  For the registry `{1 ↦ ("A", {"X" ↦ "v"})}`
and raw value `"\x00X"`, the spec-as-written algorithm fails with
`UnknownAttributeValue` on the key `"X\x00"`, while the code strips the
leading null and decodes the value `"v"`. -/
theorem attribute_strip_counterexample :
    mkAttribute [(1, ("A", [([88], "v")]))] 0 1 0 [0, 88] =
      .ok ⟨0, 1, 0, "A", "v"⟩ ∧
    specAttrDecode [(1, ("A", [([88], "v")]))] 0 1 0 [0, 88] =
      .error (.unknownAttributeValue [88, 0]) := by
  constructor
  · rfl
  · rfl

/-- C1 (amended): for every attribute id present in the registry, the
decoder strips leading **and** trailing null bytes and spaces from the raw
value, reverses the remaining bytes, and uses the result as the key into
the per-id value table; the attribute's value is the table entry for that
key, and an absent key fails with the unknown-attribute-value error. -/
theorem attribute_value_decoding (props : Registry) (header attr_id player : Nat)
    (value : List Nat) (name : String) (tbl : AttrTable)
    (hid : regLookup props attr_id = some (name, tbl)) :
    mkAttribute props header attr_id player value =
      match tblLookup tbl ((pyStripBytes value).reverse) with
      | some v => .ok ⟨header, attr_id, player, name, v⟩
      | none => .error (.unknownAttributeValue ((pyStripBytes value).reverse)) := by
  simp [mkAttribute, hid]

/-- C1 witness: in the registry `{1 ↦ ("A", {"X" ↦ "v"})}`, the raw value
`"X\x00 "` decodes to `"v"` (padding stripped, bytes reversed), while the
raw value `"M"` fails with `UnknownAttributeValue`. -/
theorem attribute_value_decoding_witness :
    mkAttribute [(1, ("A", [([88], "v")]))] 0 1 0 [88, 0, 32] = .ok ⟨0, 1, 0, "A", "v"⟩ ∧
    mkAttribute [(1, ("A", [([88], "v")]))] 0 1 0 [77] =
      .error (.unknownAttributeValue [77]) := by
  have h1 := attribute_value_decoding [(1, ("A", [([88], "v")]))] 0 1 0 [88, 0, 32]
    "A" [([88], "v")] rfl
  have h2 := attribute_value_decoding [(1, ("A", [([88], "v")]))] 0 1 0 [77]
    "A" [([88], "v")] rfl
  exact ⟨h1.trans (by rfl), h2.trans (by rfl)⟩

/-- C2 counterexample: construction does **not** succeed for every byte
sequence of at least 12 bytes — `bytes[4:8].decode('utf-8')` raises
`UnicodeDecodeError` when the server field is not valid UTF-8, here four
`0xFF` bytes. -/
theorem depotfile_construction_counterexample :
    mkDepotFile [115, 50, 109, 97, 255, 255, 255, 255, 1, 2, 3, 4] = none := rfl

/-- C2 (amended): for every byte sequence of at least 12 bytes whose server
field `bytes[4:8]` is valid UTF-8 and whose type field `bytes[0:4]` is
ASCII, construction succeeds with server = decoded `bytes[4:8]` stripped of
null/space padding, hash = lowercase hex of `bytes[8:]`, type = raw
`bytes[0:4]`, and the url is
`"http://{server}.depot.battle.net:1119/{hash}.{type}"`. -/
theorem depotfile_url (bytes : List Nat) (serverChars : List Char)
    (hlen : 12 ≤ bytes.length)
    (hserver : utf8Decode ((bytes.drop 4).take 4) = some serverChars)
    (htype : (bytes.take 4).all (fun b => b < 128) = true) :
    mkDepotFile bytes =
      some ⟨String.mk (pyStripChars serverChars), hexOfBytes (bytes.drop 8), bytes.take 4⟩ ∧
    DepotFile.url ⟨String.mk (pyStripChars serverChars), hexOfBytes (bytes.drop 8), bytes.take 4⟩ =
      some ("http://" ++ String.mk (pyStripChars serverChars) ++ ".depot.battle.net:1119/" ++
        hexOfBytes (bytes.drop 8) ++ "." ++ String.mk ((bytes.take 4).map Char.ofNat)) := by
  constructor
  · simp [mkDepotFile, hserver]
  · simp [DepotFile.url, htype]

/-- C2 witness: the spec scenario
`DepotFile(b"s2ma" + b"us\x00\x00" + bytes.fromhex("deadbeef"))` derives
the url `"http://us.depot.battle.net:1119/deadbeef.s2ma"`. -/
theorem depotfile_url_witness :
    ∃ d, mkDepotFile [115, 50, 109, 97, 117, 115, 0, 0, 222, 173, 190, 239] = some d ∧
      d.url = some "http://us.depot.battle.net:1119/deadbeef.s2ma" := by
  have h := depotfile_url [115, 50, 109, 97, 117, 115, 0, 0, 222, 173, 190, 239]
    ['u', 's', '\x00', '\x00'] (by decide) (by decide) (by decide)
  exact ⟨_, h.1, h.2.trans (by decide)⟩

/-- C3: `Team.hash` is order independent — permuting the players list of a
team leaves the digest unchanged, because the member URLs are sorted before
being comma-joined and hashed. -/
theorem team_hash_order_independent (n : Int) (r l : String) (ps qs : List Player)
    (h : ps.Perm qs) :
    Team.hash (.mk n ps r l) = Team.hash (.mk n qs r l) :=
  Team.hash_eq_of_url_perm (h.map Player.url)

/-- C3 witness: a team of Alice and Bob hashes identically no matter which
player was added first. -/
theorem team_hash_order_independent_witness :
    Team.hash (.mk 1 [pAlice, pBob] "Unknown" "") =
      Team.hash (.mk 1 [pBob, pAlice] "Unknown" "") :=
  team_hash_order_independent 1 "Unknown" "" [pAlice, pBob] [pBob, pAlice]
    (List.Perm.swap pBob pAlice [])

/-- C4 counterexample: equality of digests is **not** equivalent to
equality of the *sets* of member URLs.  A team whose players list holds the
same player once and a team holding it twice have the same URL set, but the
joined strings (one URL vs. two comma-joined copies) hash differently. -/
theorem team_hash_set_counterexample :
    ((Team.mk 1 [pBlank] "Unknown" "").players.map Player.url).toFinset =
      ((Team.mk 2 [pBlank, pBlank] "Unknown" "").players.map Player.url).toFinset ∧
    Team.hash (.mk 1 [pBlank] "Unknown" "") ≠
      Team.hash (.mk 2 [pBlank, pBlank] "Unknown" "") := by
  constructor
  · decide
  · decide

/-- C4 (amended): the digest is determined by the *multiset* of member
profile URLs — two memberships whose URL lists are permutations of one
another hash identically.  (The converse — distinct multisets never
collide — is the collision resistance of the underlying 256-bit digest and
is not a theorem.) -/
theorem team_hash_multiset (t1 t2 : Team)
    (h : (t1.players.map Player.url).Perm (t2.players.map Player.url)) :
    t1.hash = t2.hash :=
  Team.hash_eq_of_url_perm h

/-- C4 witness: two teams with different player records (different pids and
results) but the same member URLs hash identically. -/
theorem team_hash_multiset_witness :
    Team.hash (.mk 1 [{ mkPlayer 1 "X" with gateway := some "us" }] "Win" "") =
      Team.hash (.mk 2 [{ mkPlayer 2 "X" with gateway := some "us" }] "Loss" "") :=
  team_hash_multiset (.mk 1 [{ mkPlayer 1 "X" with gateway := some "us" }] "Win" "")
    (.mk 2 [{ mkPlayer 2 "X" with gateway := some "us" }] "Loss" "") (by decide)

/-- C5 (code bug): `DepotFile` defines `__hash__` as `hash(self.url)` but
no `__eq__`, so `==` falls back to object identity.  Two instances decoded
from different byte sequences with the same url have equal urls and equal
hash values, yet compare unequal — against the spec's contract that equal
urls must compare equal. -/
theorem depotfile_identity_eq (pyhash : String → Int) :
    ∃ d1 d2,
      mkDepotFile [115, 50, 109, 97, 117, 115, 0, 0, 222, 173, 190, 239] = some d1 ∧
      mkDepotFile [115, 50, 109, 97, 117, 115, 0, 32, 222, 173, 190, 239] = some d2 ∧
      d1.url = d2.url ∧
      pyDepotHash pyhash ⟨0, d1⟩ = pyDepotHash pyhash ⟨1, d2⟩ ∧
      pyDepotEqBool ⟨0, d1⟩ ⟨1, d2⟩ = false := by
  exact ⟨_, _, rfl, rfl, rfl, rfl, rfl⟩

/-- C6: constructing an `Attribute` with an id absent from the registry
fails at construction time with the unknown-attribute-id error; the
`Except` result carries no partially constructed object. -/
theorem attribute_unknown_id (props : Registry) (header attr_id player : Nat)
    (value : List Nat) (h : regLookup props attr_id = none) :
    mkAttribute props header attr_id player value =
      .error (.unknownAttributeId attr_id) := by
  simp [mkAttribute, h]

/-- C6 witness: id 5 is absent from the empty registry, so construction
fails with the unknown-attribute-id error. -/
theorem attribute_unknown_id_witness :
    mkAttribute [] 0 5 0 [] = .error (.unknownAttributeId 5) :=
  attribute_unknown_id [] 0 5 0 [] rfl

/-- C7 counterexample: `Graph.__init__` performs no length check on the
parallel-sequence form — constructing from `x = [1, 2]`, `y = [3]` succeeds
and leaves `times` and `values` with different lengths. -/
theorem graph_length_counterexample :
    (mkGraph [1, 2] [3] (none : Option (List (Nat × Nat)))).times.length ≠
      (mkGraph [1, 2] [3] (none : Option (List (Nat × Nat)))).values.length := by
  decide

/-- C7 (amended): `len(times) == len(values)` holds after construction from
a non-empty pair list unconditionally, and after construction from two
parallel sequences (pair list absent or empty) exactly when those
sequences have equal length. -/
theorem graph_length_invariant {α β : Type} (x : List α) (y : List β)
    (xy_list : Option (List (α × β)))
    (h : (xy_list = none ∨ xy_list = some []) → x.length = y.length) :
    (mkGraph x y xy_list).times.length = (mkGraph x y xy_list).values.length := by
  cases xy_list with
  | none => simpa [mkGraph] using h (Or.inl rfl)
  | some l =>
    cases l with
    | nil => simpa [mkGraph] using h (Or.inr rfl)
    | cons p ps => simp [mkGraph]

/-- C7 witness: equal-length parallel sequences yield the invariant. -/
theorem graph_length_invariant_witness :
    (mkGraph [1, 2] [3, 4] (none : Option (List (Nat × Nat)))).times.length =
      (mkGraph [1, 2] [3, 4] (none : Option (List (Nat × Nat)))).values.length :=
  graph_length_invariant [1, 2] [3, 4] none (fun _ => rfl)

/-- C8: `Player.result` returns `"Unknown"` when no team is assigned and
delegates to the owning team's `result` otherwise. -/
theorem player_result_cases (p : Player) :
    (p.team = none → p.result = "Unknown") ∧
    ∀ t, p.team = some t → p.result = t.result := by
  constructor
  · intro h
    simp [Player.result, h]
  · intro t h
    simp [Player.result, h]

/-- C8 witness: a freshly constructed player has no team and result
`"Unknown"`. -/
theorem player_result_cases_witness :
    (mkPlayer 1 "Alice").result = "Unknown" :=
  (player_result_cases (mkPlayer 1 "Alice")).1 rfl

/-- C9: a team with zero players is hashable — the digest is the SHA-256
hex digest of the empty string (the well-known value
`e3b0c4...b855`). -/
theorem team_hash_empty (number : Int) (result lineup : String) :
    Team.hash (.mk number [] result lineup) = some (sha256hex (utf8Encode "")) ∧
    sha256hex (utf8Encode "") =
      "e3b0c44298fc1c149afbf4c8996fb92427ae41e4649b934ca495991b7852b855" := by
  constructor
  · rfl
  · rfl

/-- C10: no constructor in the `Person`/`Player` chain assigns `gateway`,
so a freshly constructed player has no gateway attribute and reading `url`
fails with an attribute access error (`none`) rather than producing a
profile URL. -/
theorem player_url_unset_gateway (pid : Int) (name : String) :
    (mkPlayer pid name).gateway = none ∧ (mkPlayer pid name).url = none :=
  ⟨rfl, rfl⟩

end SC2Reader
